import Mathlib

/-!
Shallow embedding of the digital-twin core of
`src/src/api/digital_twin_server.py.backup`
(class `IndianEHVSubstationDigitalTwin`).

Numeric fields of the Python code (floats) are modelled as rationals;
random draws (`np.random.normal`, `np.random.uniform`) and readings taken
from the external OpenDSS engine are passed in as explicit parameters,
with `Option` encoding the inner try/except fallbacks around engine reads.
Timestamps are modelled as natural numbers.
-/

namespace DigitalTwin

/-- Mirrors the `AssetStatus` dataclass of the server. -/
structure AssetStatus where
  asset_id : String
  asset_type : String
  status : String
  voltage : ℚ
  current : ℚ
  power : ℚ
  temperature : ℚ
  timestamp : ℕ
  health_score : ℚ
deriving DecidableEq, Repr

/-- Mirrors the `SubstationMetrics` dataclass of the server. -/
structure SubstationMetrics where
  total_power : ℚ
  total_load : ℚ
  efficiency : ℚ
  voltage_stability : ℚ
  frequency : ℚ
  timestamp : ℕ
  grid_connection : Bool
  fault_count : ℕ
deriving DecidableEq, Repr

/-- Mirrors the `FaultAnalysis` dataclass of the server. -/
structure FaultAnalysis where
  fault_type : String
  fault_location : String
  fault_impedance : ℚ
  fault_current : ℚ
  protection_operation : Bool
  clearance_time : ℚ
  timestamp : ℕ
deriving DecidableEq, Repr

/-- The fields of `self.opendss_results` that `_update_asset_statuses` and
`_update_substation_metrics` read via `.get`. -/
structure SolveResult where
  voltage_400kv : ℚ
  voltage_220kv : ℚ
  total_power_kw : ℚ
  total_power_kvar : ℚ
  total_losses_mw : ℚ
  max_voltage_pu : ℚ
  min_voltage_pu : ℚ
  converged : Bool
deriving DecidableEq, Repr

/-- `self.assets`: a Python dict keyed by asset id, insertion ordered. -/
abbrev Registry := List (String × AssetStatus)

/-- Dictionary lookup `self.assets[asset_id]` / `asset_id in self.assets`. -/
def getAsset : Registry → String → Option AssetStatus
  | [], _ => none
  | p :: rest, id => if p.1 = id then some p.2 else getAsset rest id

/-- In-place mutation of the dict entry for `id` (Python mutates the
`AssetStatus` object stored under the key; keys are unchanged). -/
def setAsset (reg : Registry) (id : String) (a : AssetStatus) : Registry :=
  reg.map (fun p => if p.1 = id then (p.1, a) else p)

/-- The two `raise ValueError` sites of `control_asset`: unknown asset id,
or an action not applicable to the asset's type. -/
inductive ControlError where
  | assetNotFound
  | invalidAction
deriving DecidableEq, Repr

/-- Mirrors `IndianEHVSubstationDigitalTwin.control_asset`.  The Python
method mutates `self.assets[asset_id]` and returns a success dict, or
raises; here the updated registry plus the success message are returned
in `Except`. -/
def controlAsset (reg : Registry) (asset_id action : String) :
    Except ControlError (Registry × String) :=
  match getAsset reg asset_id with
  | none => .error .assetNotFound
  | some asset =>
    if action = "open" ∧ asset.asset_type = "CircuitBreaker" then
      .ok (setAsset reg asset_id { asset with status := "open" },
           "Asset " ++ asset_id ++ " " ++ action ++ " completed")
    else if action = "close" ∧ asset.asset_type = "CircuitBreaker" then
      .ok (setAsset reg asset_id { asset with status := "closed" },
           "Asset " ++ asset_id ++ " " ++ action ++ " completed")
    else if action = "trip" then
      .ok (setAsset reg asset_id
             { asset with status := "fault",
                          health_score := max 0 (asset.health_score - 10) },
           "Asset " ++ asset_id ++ " " ++ action ++ " completed")
    else if action = "reset" then
      .ok (setAsset reg asset_id
             { asset with status := "healthy",
                          health_score := min 100 (asset.health_score + 20) },
           "Asset " ++ asset_id ++ " " ++ action ++ " completed")
    else .error .invalidAction

/-- Grid-connection branch of `_update_asset_statuses` (asset `Grid400kV`). -/
def updateGridConnection (r : SolveResult) (t : ℕ) (a : AssetStatus) : AssetStatus :=
  let voltage := r.voltage_400kv
  let power := |r.total_power_kw| / 1000
  let current := if voltage > 0 then power * 1000 / (voltage * (1732 / 1000)) else 0
  { a with voltage := voltage, power := power, current := current,
           temperature := 25,
           status := if r.converged then "healthy" else "warning",
           timestamp := t }

/-- Power-transformer branch of `_update_asset_statuses`
(assets `TX1_400_220`, `TX2_400_220`).  `enginePower = some p` models a
successful `CktElement.Powers()` read of `powers[0]`; `none` models the
short/failed read, which falls back to `total_power_kw / 2000`. -/
def updatePowerTransformer (r : SolveResult) (enginePower : Option ℚ)
    (jitter : ℚ) (t : ℕ) (a : AssetStatus) : AssetStatus :=
  let power := match enginePower with
    | some p => |p|
    | none => |r.total_power_kw| / 2000
  let voltage := r.voltage_400kv
  let current := if voltage > 0 then power / (voltage * (1732 / 1000)) else 0
  let base_temp : ℚ := 45
  let load_mva := power / 1000
  let load_factor := min (load_mva / 315) 1
  let temperature := base_temp + load_factor * 35 + jitter
  if temperature > 85 then
    { a with power := power, voltage := voltage, current := current,
             temperature := temperature,
             health_score := max 0 (a.health_score - 1/2),
             status := "fault", timestamp := t }
  else if temperature > 70 then
    { a with power := power, voltage := voltage, current := current,
             temperature := temperature,
             health_score := max 60 (a.health_score - 1/10),
             status := "warning", timestamp := t }
  else
    { a with power := power, voltage := voltage, current := current,
             temperature := temperature,
             health_score := min 100 (a.health_score + 1/20),
             status := "healthy", timestamp := t }

/-- Distribution-transformer branch of `_update_asset_statuses`
(assets `DTX1_220_33`, `DTX2_220_33`). -/
def updateDistributionTransformer (r : SolveResult) (enginePower : Option ℚ)
    (jitter : ℚ) (t : ℕ) (a : AssetStatus) : AssetStatus :=
  let power := match enginePower with
    | some p => |p|
    | none => |r.total_power_kw| / 4000
  let voltage := r.voltage_220kv
  let current := if voltage > 0 then power / (voltage * (1732 / 1000)) else 0
  let base_temp : ℚ := 50
  let load_mva := power / 1000
  let load_factor := min (load_mva / 50) 1
  let temperature := base_temp + load_factor * 30 + jitter
  if temperature > 90 then
    { a with power := power, voltage := voltage, current := current,
             temperature := temperature,
             health_score := max 0 (a.health_score - 1/2),
             status := "fault", timestamp := t }
  else if temperature > 75 then
    { a with power := power, voltage := voltage, current := current,
             temperature := temperature,
             health_score := max 60 (a.health_score - 1/10),
             status := "warning", timestamp := t }
  else
    { a with power := power, voltage := voltage, current := current,
             temperature := temperature,
             health_score := min 100 (a.health_score + 1/20),
             status := "healthy", timestamp := t }

/-- Circuit-breaker branch of `_update_asset_statuses` (assets `CB_1`…`CB_5`).
In the `fault` branch the status is left unchanged. -/
def updateCircuitBreaker (jitter : ℚ) (t : ℕ) (a : AssetStatus) : AssetStatus :=
  let temperature := 30 + jitter
  if a.status = "fault" then
    { a with temperature := temperature,
             health_score := max 0 (a.health_score - 1), timestamp := t }
  else
    { a with temperature := temperature,
             health_score := min 100 (a.health_score + 1/20),
             status := "healthy", timestamp := t }

/-- Industrial-load branch of `_update_asset_statuses`
(assets `IndustrialLoad1`, `IndustrialLoad2`).  `enginePower` models the
`powers[0]` read, `engineVoltage` the `voltages[0]` read; `none` selects
the documented fallback values. -/
def updateIndustrialLoad (enginePower engineVoltage : Option ℚ)
    (jitter : ℚ) (t : ℕ) (a : AssetStatus) : AssetStatus :=
  let base_power : ℚ := if a.asset_id.contains '1' then 15000 else 12000
  let power := match enginePower with
    | some p => |p|
    | none => base_power
  let current := match enginePower with
    | some p => if p ≠ 0 then |p| / (33 * (1732 / 1000)) else 0
    | none => base_power / (33 * (1732 / 1000))
  let voltage := match enginePower, engineVoltage with
    | some _, some v => v / 1000
    | some _, none => 33
    | none, _ => 33
  let base_temp : ℚ := 35
  let power_factor := power / 20000
  let temperature := base_temp + power_factor * 15 + jitter
  if power > 18000 then
    { a with power := power, current := current, voltage := voltage,
             temperature := temperature, status := "warning",
             health_score := max 70 (a.health_score - 1/10), timestamp := t }
  else
    { a with power := power, current := current, voltage := voltage,
             temperature := temperature, status := "healthy",
             health_score := min 100 (a.health_score + 1/20), timestamp := t }

/-- Per-tick non-deterministic inputs of `_update_asset_statuses`:
whether `self.load_flow.dss` is truthy, the per-asset OpenDSS element
reads (with `none` for a failed/short read), the per-asset
`np.random.normal` jitters, and the frequency perturbation used by
`_update_substation_metrics`. -/
structure EngineData where
  dssAvailable : Bool
  txPowers : String → Option ℚ
  loadPowers : String → Option ℚ
  loadVoltages : String → Option ℚ
  jitter : String → ℚ
  freqJitter : ℚ

/-- The breaker ids iterated by `_update_asset_statuses`. -/
def cbIds : List String := ["CB_1", "CB_2", "CB_3", "CB_4", "CB_5"]

/-- Dispatch of `_update_asset_statuses` on the hard-coded asset ids. -/
def tickUpdateAsset (r : SolveResult) (eng : EngineData) (t : ℕ)
    (id : String) (a : AssetStatus) : AssetStatus :=
  if id = "Grid400kV" then updateGridConnection r t a
  else if id = "TX1_400_220" ∨ id = "TX2_400_220" then
    updatePowerTransformer r (eng.txPowers id) (eng.jitter id) t a
  else if id = "DTX1_220_33" ∨ id = "DTX2_220_33" then
    updateDistributionTransformer r (eng.txPowers id) (eng.jitter id) t a
  else if id ∈ cbIds then updateCircuitBreaker (eng.jitter id) t a
  else if id = "IndustrialLoad1" ∨ id = "IndustrialLoad2" then
    updateIndustrialLoad (eng.loadPowers id) (eng.loadVoltages id) (eng.jitter id) t a
  else a

/-- The asset ids visited by `_update_asset_statuses`, in source order. -/
def tickAssetIds : List String :=
  ["Grid400kV", "TX1_400_220", "TX2_400_220", "DTX1_220_33", "DTX2_220_33",
   "CB_1", "CB_2", "CB_3", "CB_4", "CB_5", "IndustrialLoad1", "IndustrialLoad2"]

/-- One `if <id> in self.assets:` guarded in-place update of
`_update_asset_statuses`. -/
def tickStep (r : SolveResult) (eng : EngineData) (t : ℕ)
    (acc : Registry) (id : String) : Registry :=
  match getAsset acc id with
  | none => acc
  | some a => setAsset acc id (tickUpdateAsset r eng t id a)

/-- Mirrors `_update_asset_statuses`: early-returns when the OpenDSS engine
handle is unavailable, otherwise updates each hard-coded asset id present
in the registry in place. -/
def updateAssetStatuses (r : SolveResult) (eng : EngineData) (t : ℕ)
    (reg : Registry) : Registry :=
  if eng.dssAvailable then tickAssetIds.foldl (tickStep r eng t) reg
  else reg

/-- Mirrors `_update_substation_metrics`. -/
def updateSubstationMetrics (r : SolveResult) (freqJitter : ℚ) (t : ℕ)
    (reg : Registry) (m : SubstationMetrics) : SubstationMetrics :=
  let total_power_kw := |r.total_power_kw|
  let total_losses_mw := r.total_losses_mw
  let total_power_mw := total_power_kw / 1000
  let input_power_mw := total_power_mw + total_losses_mw
  let efficiency := if input_power_mw > 0 then total_power_mw / input_power_mw * 100 else 0
  let voltage_deviation := (r.max_voltage_pu - r.min_voltage_pu) * 100
  { m with
    efficiency := efficiency,
    voltage_stability := max 0 (100 - voltage_deviation),
    total_power := total_power_mw,
    total_load := total_power_mw,
    timestamp := t,
    frequency := 50 + freqJitter,
    grid_connection :=
      r.converged &&
        reg.all (fun p => p.2.asset_type != "GridConnection" || p.2.status != "fault") }

/-- The mutable twin state touched by the simulation loop and the fault
ledger: `self.assets`, `self.metrics`, `self.opendss_results`, `self.faults`. -/
structure TwinState where
  assets : Registry
  metrics : SubstationMetrics
  opendssResults : SolveResult
  faults : List FaultAnalysis

/-- One successful pass of the body of `_simulation_loop` after the solver
returned `r`: asset update, then metrics update (AI analysis and broadcast
do not touch this state). -/
def applyTick (r : SolveResult) (eng : EngineData) (t : ℕ) (s : TwinState) : TwinState :=
  let assets := updateAssetStatuses r eng t s.assets
  { s with opendssResults := r,
           assets := assets,
           metrics := updateSubstationMetrics r eng.freqJitter t assets s.metrics }

/-- One iteration of `_simulation_loop`, whose whole body sits in a
`try/except` block: a solver exception (`Except.error`) is caught before
any state was written, so the iteration leaves the state unchanged. -/
def simulationTick (solveOutcome : Except Unit SolveResult) (eng : EngineData)
    (t : ℕ) (s : TwinState) : TwinState :=
  match solveOutcome with
  | .error _ => s
  | .ok r => applyTick r eng t s

/-- The `while self.is_running` loop of `_simulation_loop`, driven by the
finite schedule of per-tick inputs observed while it ran. -/
def runSimulationLoop : List (Except Unit SolveResult × EngineData × ℕ) → TwinState → TwinState
  | [], s => s
  | (o, eng, t) :: rest, s => runSimulationLoop rest (simulationTick o eng t s)

/-- The record built by `run_fault_analysis`; the `np.random.uniform`
draws are passed in as parameters. -/
def mkFaultRecord (fault_type fault_location : String)
    (impedance current clearance : ℚ) (t : ℕ) : FaultAnalysis :=
  { fault_type := fault_type, fault_location := fault_location,
    fault_impedance := impedance, fault_current := current,
    protection_operation := true, clearance_time := clearance, timestamp := t }

/-- Mirrors `run_fault_analysis`: builds the record, appends it to
`self.faults`, increments `self.metrics.fault_count`, returns the record. -/
def runFaultAnalysis (fault_type fault_location : String)
    (impedance current clearance : ℚ) (t : ℕ) (s : TwinState) :
    FaultAnalysis × TwinState :=
  let fault := mkFaultRecord fault_type fault_location impedance current clearance t
  (fault,
   { s with faults := s.faults ++ [fault],
            metrics := { s.metrics with fault_count := s.metrics.fault_count + 1 } })

/-- Mirrors `get_fault_history`. -/
def getFaultHistory (s : TwinState) : List FaultAnalysis := s.faults

/-- The broadcast payload built by `_broadcast_updates`. -/
structure UpdateMessage where
  assets : Registry
  metrics : SubstationMetrics
  timestamp : ℕ
deriving DecidableEq

/-- Mirrors `_broadcast_updates`.  Clients are modelled by handles (`ℕ`);
`fails c = true` models `client.send` raising for `c`.  The loop sends to
every client whose send does not raise and collects the raising ones into
`disconnected`, in list order; afterwards each disconnected client is
removed from the client list with Python `list.remove` (first occurrence).
Returns the remaining client list and the performed deliveries. -/
def broadcastUpdates (fails : ℕ → Bool) (msg : UpdateMessage)
    (clients : List ℕ) : List ℕ × List (ℕ × UpdateMessage) :=
  if clients.isEmpty then (clients, [])
  else
    let disconnected := clients.filter fails
    let sent := (clients.filter (fun c => !fails c)).map (fun c => (c, msg))
    (disconnected.foldl (fun cs d => cs.erase d) clients, sent)

/-! ## Helper lemmas about the registry -/

/-- Overwriting the entry for `id` makes `getAsset` at `id` return the new
asset (provided the key was present). -/
theorem getAsset_setAsset_self {reg : Registry} {id : String} {a : AssetStatus}
    (b : AssetStatus) (h : getAsset reg id = some a) :
    getAsset (setAsset reg id b) id = some b := by
  induction reg with
  | nil => simp [getAsset] at h
  | cons p rest ih =>
    by_cases hp : p.1 = id
    · simp [getAsset, setAsset, hp]
    · simp only [getAsset, setAsset, hp, if_false, List.map_cons, if_neg hp] at h ⊢
      exact ih h

/-- Overwriting the entry for another key leaves `getAsset` at `id` alone. -/
theorem getAsset_setAsset_ne {reg : Registry} {id id' : String}
    (b : AssetStatus) (h : id ≠ id') :
    getAsset (setAsset reg id' b) id = getAsset reg id := by
  induction reg with
  | nil => simp [getAsset, setAsset]
  | cons p rest ih =>
    by_cases hp : p.1 = id'
    · simp only [setAsset, List.map_cons, if_pos hp, getAsset]
      rw [show (getAsset (List.map (fun p => if p.1 = id' then (p.1, b) else p) rest) id)
            = getAsset (setAsset rest id' b) id from rfl, ih]
      by_cases hq : p.1 = id
      · exact absurd (hq ▸ hp) h
      · simp [hq]
    · simp only [setAsset, List.map_cons, if_neg hp, getAsset]
      by_cases hq : p.1 = id
      · simp [hq]
      · simp only [hq, if_false]
        exact ih

/-- A successful lookup exhibits the entry in the registry. -/
theorem getAsset_mem {reg : Registry} {id : String} {a : AssetStatus}
    (h : getAsset reg id = some a) : (id, a) ∈ reg := by
  induction reg with
  | nil => simp [getAsset] at h
  | cons p rest ih =>
    by_cases hp : p.1 = id
    · simp only [getAsset, if_pos hp, Option.some.injEq] at h
      obtain ⟨k, v⟩ := p
      cases hp
      cases h
      exact List.mem_cons_self _ _
    · simp only [getAsset, if_neg hp] at h
      exact List.mem_cons_of_mem _ (ih h)

/-! ## Shape lemmas for `controlAsset` -/

/-- Evaluation of the `trip` branch of `control_asset`. -/
theorem controlAsset_trip {reg : Registry} {id : String} {a : AssetStatus}
    (h : getAsset reg id = some a) :
    controlAsset reg id "trip" =
      .ok (setAsset reg id
             { a with status := "fault",
                      health_score := max 0 (a.health_score - 10) },
           "Asset " ++ id ++ " " ++ "trip" ++ " completed") := by
  simp [controlAsset, h]

/-- Evaluation of the `reset` branch of `control_asset`. -/
theorem controlAsset_reset {reg : Registry} {id : String} {a : AssetStatus}
    (h : getAsset reg id = some a) :
    controlAsset reg id "reset" =
      .ok (setAsset reg id
             { a with status := "healthy",
                      health_score := min 100 (a.health_score + 20) },
           "Asset " ++ id ++ " " ++ "reset" ++ " completed") := by
  simp [controlAsset, h]

/-! ## Sample data used by witnesses and counterexamples -/

/-- An `AssetStatus` with the electrical fields zeroed. -/
def mkAsset (id ty st : String) (h : ℚ) : AssetStatus :=
  { asset_id := id, asset_type := ty, status := st, voltage := 0, current := 0,
    power := 0, temperature := 0, timestamp := 0, health_score := h }

/-- A benign solver result. -/
def sampleSolve : SolveResult :=
  { voltage_400kv := 400, voltage_220kv := 220, total_power_kw := 0,
    total_power_kvar := 0, total_losses_mw := 0, max_voltage_pu := 1,
    min_voltage_pu := 1, converged := true }

/-! ## Claim C7 -/

/-- Claim C7: for every existing asset, `trip` sets the status to `fault`
and lowers the health score by the fixed penalty `10`, clamped at `0`. -/
theorem trip_sets_fault_and_penalty (reg : Registry) (id : String)
    (a : AssetStatus) (h : getAsset reg id = some a) :
    controlAsset reg id "trip" =
      .ok (setAsset reg id
             { a with status := "fault",
                      health_score := max 0 (a.health_score - 10) },
           "Asset " ++ id ++ " " ++ "trip" ++ " completed") ∧
    getAsset (setAsset reg id
        { a with status := "fault",
                 health_score := max 0 (a.health_score - 10) }) id =
      some { a with status := "fault",
                    health_score := max 0 (a.health_score - 10) } ∧
    0 ≤ max 0 (a.health_score - 10) :=
  ⟨controlAsset_trip h, getAsset_setAsset_self _ h, le_max_left _ _⟩

/-- Claim C7 witness: a healthy asset with health score `95` ends up with
status `fault` and health score `85` after one `trip`. -/
theorem trip_sets_fault_and_penalty_witness :
    controlAsset [("TX9", mkAsset "TX9" "PowerTransformer" "healthy" 95)]
        "TX9" "trip" =
      .ok (setAsset [("TX9", mkAsset "TX9" "PowerTransformer" "healthy" 95)]
             "TX9"
             { mkAsset "TX9" "PowerTransformer" "healthy" 95 with
                 status := "fault", health_score := max 0 ((95 : ℚ) - 10) },
           "Asset " ++ "TX9" ++ " " ++ "trip" ++ " completed") ∧
    getAsset (setAsset [("TX9", mkAsset "TX9" "PowerTransformer" "healthy" 95)]
        "TX9" (mkAsset "TX9" "PowerTransformer" "fault" 85)) "TX9" =
      some (mkAsset "TX9" "PowerTransformer" "fault" 85) ∧
    max 0 ((95 : ℚ) - 10) = 85 := by
  have h := trip_sets_fault_and_penalty
    [("TX9", mkAsset "TX9" "PowerTransformer" "healthy" 95)] "TX9"
    (mkAsset "TX9" "PowerTransformer" "healthy" 95) (by decide)
  refine ⟨h.1, by decide, ?_⟩
  rw [max_eq_right (by norm_num : (0:ℚ) ≤ 95 - 10)]
  norm_num

/-! ## Claim C2 -/

/-- Clamping twice by `min 100 (· + 20)` equals one clamp of `+ 40`. -/
theorem min_clamp_twice (h : ℚ) :
    min 100 (min 100 (h + 20) + 20) = min 100 (h + 40) := by
  rcases le_total 100 (h + 20) with hle | hle
  · rw [min_eq_left hle, min_eq_left (by norm_num : (100:ℚ) ≤ 100 + 20),
        min_eq_left (by linarith : (100:ℚ) ≤ h + 40)]
  · rw [min_eq_right hle]
    ring_nf

/-- The two clamped bonuses agree exactly when the start is at least 80. -/
theorem min_clamp_eq_iff (h : ℚ) :
    min 100 (h + 40) = min 100 (h + 20) ↔ 80 ≤ h := by
  constructor
  · intro he
    by_contra hlt
    push_neg at hlt
    rw [min_eq_right (by linarith : h + 20 ≤ 100)] at he
    rcases le_total 100 (h + 40) with hc | hc
    · rw [min_eq_left hc] at he
      linarith
    · rw [min_eq_right hc] at he
      linarith
  · intro h80
    rw [min_eq_left (by linarith : (100:ℚ) ≤ h + 40),
        min_eq_left (by linarith : (100:ℚ) ≤ h + 20)]

def cexAsset : AssetStatus := mkAsset "TX1_400_220" "PowerTransformer" "healthy" 50

def cexReg : Registry := [("TX1_400_220", cexAsset)]

def cexAsset1 : AssetStatus := mkAsset "TX1_400_220" "PowerTransformer" "healthy" 70

def cexReg1 : Registry := [("TX1_400_220", cexAsset1)]

def cexAsset2 : AssetStatus := mkAsset "TX1_400_220" "PowerTransformer" "healthy" 90

def cexReg2 : Registry := [("TX1_400_220", cexAsset2)]

/-- First concrete `reset` on the counterexample registry: 50 → 70. -/
theorem cexReset_step1 :
    controlAsset cexReg "TX1_400_220" "reset" =
      .ok (cexReg1, "Asset " ++ "TX1_400_220" ++ " " ++ "reset" ++ " completed") := by
  have h1 := controlAsset_reset
    (show getAsset cexReg "TX1_400_220" = some cexAsset by decide)
  have e1 : min (100:ℚ) (cexAsset.health_score + 20) = cexAsset1.health_score := by
    show min (100:ℚ) (50 + 20) = 70
    rw [min_eq_right (by norm_num : (50:ℚ) + 20 ≤ 100)]
    norm_num
  rw [h1, e1]
  rfl

/-- Second concrete `reset` on the counterexample registry: 70 → 90. -/
theorem cexReset_step2 :
    controlAsset cexReg1 "TX1_400_220" "reset" =
      .ok (cexReg2, "Asset " ++ "TX1_400_220" ++ " " ++ "reset" ++ " completed") := by
  have h2 := controlAsset_reset
    (show getAsset cexReg1 "TX1_400_220" = some cexAsset1 by decide)
  have e2 : min (100:ℚ) (cexAsset1.health_score + 20) = cexAsset2.health_score := by
    show min (100:ℚ) (70 + 20) = 90
    rw [min_eq_right (by norm_num : (70:ℚ) + 20 ≤ 100)]
    norm_num
  rw [h2, e2]
  rfl

/-- Claim C2 counterexample: starting from health score 50, one `reset`
ends at 70 but a second `reset` moves on to 90, so the terminal health
score after two resets differs from the one after a single reset. -/
theorem reset_not_idempotent_cex :
    controlAsset cexReg "TX1_400_220" "reset" =
      .ok (cexReg1, "Asset " ++ "TX1_400_220" ++ " " ++ "reset" ++ " completed") ∧
    controlAsset cexReg1 "TX1_400_220" "reset" =
      .ok (cexReg2, "Asset " ++ "TX1_400_220" ++ " " ++ "reset" ++ " completed") ∧
    getAsset cexReg1 "TX1_400_220" = some cexAsset1 ∧
    getAsset cexReg2 "TX1_400_220" = some cexAsset2 ∧
    cexAsset2.health_score ≠ cexAsset1.health_score :=
  ⟨cexReset_step1, cexReset_step2, by decide, by decide, by decide⟩

/-- Claim C2 amended: both resets end with status `healthy`; the terminal
health score after two resets is `min 100 (h + 40)` against `min 100 (h + 20)`
after one, and the two agree exactly when the starting health score is at
least 80 (so that the bonus clamps to 100). -/
theorem reset_twice_characterization (reg : Registry) (id : String)
    (a : AssetStatus) (h : getAsset reg id = some a)
    (reg1 : Registry) (m1 : String)
    (h1 : controlAsset reg id "reset" = .ok (reg1, m1))
    (reg2 : Registry) (m2 : String)
    (h2 : controlAsset reg1 id "reset" = .ok (reg2, m2))
    (a1 : AssetStatus) (ha1 : getAsset reg1 id = some a1)
    (a2 : AssetStatus) (ha2 : getAsset reg2 id = some a2) :
    a1.status = "healthy" ∧ a2.status = "healthy" ∧
    a1.health_score = min 100 (a.health_score + 20) ∧
    a2.health_score = min 100 (a.health_score + 40) ∧
    (a2.health_score = a1.health_score ↔ 80 ≤ a.health_score) := by
  rw [controlAsset_reset h] at h1
  obtain ⟨rfl, rfl⟩ : reg1 = setAsset reg id
      { a with status := "healthy",
               health_score := min 100 (a.health_score + 20) } ∧
      m1 = "Asset " ++ id ++ " " ++ "reset" ++ " completed" := by
    have := Except.ok.inj h1
    exact ⟨congrArg Prod.fst this.symm, congrArg Prod.snd this.symm⟩
  have hg1 : getAsset (setAsset reg id
      { a with status := "healthy",
               health_score := min 100 (a.health_score + 20) }) id =
      some { a with status := "healthy",
                    health_score := min 100 (a.health_score + 20) } :=
    getAsset_setAsset_self _ h
  rw [controlAsset_reset hg1] at h2
  obtain ⟨rfl, rfl⟩ : reg2 = setAsset _ id
      { a with status := "healthy",
               health_score := min 100 (min 100 (a.health_score + 20) + 20) } ∧
      m2 = "Asset " ++ id ++ " " ++ "reset" ++ " completed" := by
    have := Except.ok.inj h2
    exact ⟨congrArg Prod.fst this.symm, congrArg Prod.snd this.symm⟩
  rw [hg1] at ha1
  rw [getAsset_setAsset_self _ hg1] at ha2
  obtain rfl := (Option.some.inj ha1).symm
  obtain rfl := (Option.some.inj ha2).symm
  refine ⟨rfl, rfl, rfl, ?_, ?_⟩
  · show min 100 (min 100 (a.health_score + 20) + 20) = min 100 (a.health_score + 40)
    exact min_clamp_twice a.health_score
  · show min 100 (min 100 (a.health_score + 20) + 20) =
        min 100 (a.health_score + 20) ↔ 80 ≤ a.health_score
    rw [min_clamp_twice a.health_score]
    exact min_clamp_eq_iff a.health_score

/-- Claim C2 witness: instantiating the amended characterization on a
concrete registry with starting health score 50. -/
theorem reset_twice_characterization_witness :
    cexAsset1.status = "healthy" ∧ cexAsset2.status = "healthy" ∧
    cexAsset1.health_score = min 100 (cexAsset.health_score + 20) ∧
    cexAsset2.health_score = min 100 (cexAsset.health_score + 40) ∧
    (cexAsset2.health_score = cexAsset1.health_score ↔ 80 ≤ cexAsset.health_score) :=
  reset_twice_characterization cexReg "TX1_400_220" cexAsset (by decide)
    cexReg1 _ cexReset_step1 cexReg2 _ cexReset_step2
    cexAsset1 (by decide) cexAsset2 (by decide)

/-! ## Claim C8 -/

/-- The per-class action table realized by `control_asset`: `open`/`close`
only on circuit breakers, `trip`/`reset` on every asset. -/
abbrev actionSupported (asset_type action : String) : Prop :=
  ((action = "open" ∨ action = "close") ∧ asset_type = "CircuitBreaker") ∨
    action = "trip" ∨ action = "reset"

/-- Claim C8: `control_asset` fails with `assetNotFound` exactly on unknown
asset ids, fails with `invalidAction` exactly on actions outside the
per-class table, and succeeds otherwise. -/
theorem control_error_characterization (reg : Registry) (id action : String) :
    (controlAsset reg id action = .error .assetNotFound ↔ getAsset reg id = none) ∧
    (∀ a, getAsset reg id = some a →
      (controlAsset reg id action = .error .invalidAction ↔
        ¬ actionSupported a.asset_type action)) ∧
    (∀ a, getAsset reg id = some a → actionSupported a.asset_type action →
      ∃ out, controlAsset reg id action = .ok out) := by
  cases hga : getAsset reg id with
  | none =>
    refine ⟨by simp [controlAsset, hga], ?_, ?_⟩ <;> intro a ha <;> simp_all
  | some a =>
    refine ⟨?_, ?_, ?_⟩
    · simp only [controlAsset, hga]
      constructor
      · intro h
        split_ifs at h <;> simp_all
      · intro h
        simp at h
    · intro b hb
      obtain rfl := Option.some.inj hb
      simp only [controlAsset, hga]
      constructor
      · intro h
        split_ifs at h with h1 h2 h3 h4 <;> simp_all [actionSupported]
        tauto
      · intro h
        have h1 : ¬(action = "open" ∧ a.asset_type = "CircuitBreaker") :=
          fun hc => h (Or.inl ⟨Or.inl hc.1, hc.2⟩)
        have h2 : ¬(action = "close" ∧ a.asset_type = "CircuitBreaker") :=
          fun hc => h (Or.inl ⟨Or.inr hc.1, hc.2⟩)
        have h3 : ¬(action = "trip") := fun hc => h (Or.inr (Or.inl hc))
        have h4 : ¬(action = "reset") := fun hc => h (Or.inr (Or.inr hc))
        rw [if_neg h1, if_neg h2, if_neg h3, if_neg h4]
    · intro b hb hsup
      obtain rfl := Option.some.inj hb
      simp only [controlAsset, hga]
      split_ifs with h1 h2 h3 h4
      · exact ⟨_, rfl⟩
      · exact ⟨_, rfl⟩
      · exact ⟨_, rfl⟩
      · exact ⟨_, rfl⟩
      · rcases hsup with ⟨hoc | hoc, hcb⟩ | ht | hr
        · exact absurd ⟨hoc, hcb⟩ h1
        · exact absurd ⟨hoc, hcb⟩ h2
        · exact absurd ht h3
        · exact absurd hr h4

/-- Claim C8 witness: an unknown id yields `assetNotFound`; `open` on a
non-breaker yields `invalidAction`; `open` on a breaker succeeds. -/
theorem control_error_characterization_witness :
    controlAsset [] "nope" "open" = .error .assetNotFound ∧
    controlAsset [("TX9", mkAsset "TX9" "PowerTransformer" "healthy" 95)]
      "TX9" "open" = .error .invalidAction ∧
    ∃ out, controlAsset [("CB_1", mkAsset "CB_1" "CircuitBreaker" "healthy" 98)]
      "CB_1" "open" = .ok out := by
  refine ⟨?_, ?_, ?_⟩
  · exact (control_error_characterization [] "nope" "open").1.mpr (by decide)
  · exact ((control_error_characterization
        [("TX9", mkAsset "TX9" "PowerTransformer" "healthy" 95)] "TX9" "open").2.1
        (mkAsset "TX9" "PowerTransformer" "healthy" 95) (by decide)).mpr (by decide)
  · exact (control_error_characterization
        [("CB_1", mkAsset "CB_1" "CircuitBreaker" "healthy" 98)] "CB_1" "open").2.2
        (mkAsset "CB_1" "CircuitBreaker" "healthy" 98) (by decide) (by decide)

/-! ## Claim C3 -/

/-- Claim C3: a tick whose solver call raises leaves the twin state (asset
registry, metrics, cached solver results, fault ledger) unchanged, the
exception stays inside the loop, and the remaining scheduled ticks still
run on the unchanged state. -/
theorem tick_solver_error_noop (eng : EngineData) (t : ℕ) (s : TwinState)
    (rest : List (Except Unit SolveResult × EngineData × ℕ)) :
    simulationTick (.error ()) eng t s = s ∧
    runSimulationLoop ((Except.error (), eng, t) :: rest) s = runSimulationLoop rest s := by
  exact ⟨rfl, rfl⟩

/-! ## Claim C9 -/

/-- One queued fault-analysis request with its random draws. -/
structure FaultRequest where
  fault_type : String
  fault_location : String
  impedance : ℚ
  current : ℚ
  clearance : ℚ
  timestamp : ℕ

/-- A sequence of `run_fault_analysis` calls applied in order. -/
def applyFaultRequests (reqs : List FaultRequest) (s : TwinState) : TwinState :=
  reqs.foldl (fun st q =>
    (runFaultAnalysis q.fault_type q.fault_location q.impedance q.current
      q.clearance q.timestamp st).2) s

/-- The record a queued request produces. -/
def recordOfRequest (q : FaultRequest) : FaultAnalysis :=
  mkFaultRecord q.fault_type q.fault_location q.impedance q.current
    q.clearance q.timestamp

/-- Claim C9: every `run_fault_analysis` call appends exactly one record at
the end of the ledger, leaves all earlier records in place, increments
`fault_count` by exactly one, and `get_fault_history` returns all appended
records in order of the calls. -/
theorem fault_ledger_append :
    (∀ (ft fl : String) (imp cur cl : ℚ) (t : ℕ) (s : TwinState),
      (runFaultAnalysis ft fl imp cur cl t s).1 = mkFaultRecord ft fl imp cur cl t ∧
      (runFaultAnalysis ft fl imp cur cl t s).2.faults =
        s.faults ++ [mkFaultRecord ft fl imp cur cl t] ∧
      (runFaultAnalysis ft fl imp cur cl t s).2.metrics.fault_count =
        s.metrics.fault_count + 1 ∧
      getFaultHistory (runFaultAnalysis ft fl imp cur cl t s).2 =
        getFaultHistory s ++ [mkFaultRecord ft fl imp cur cl t]) ∧
    (∀ (reqs : List FaultRequest) (s : TwinState),
      getFaultHistory (applyFaultRequests reqs s) =
        getFaultHistory s ++ reqs.map recordOfRequest) := by
  constructor
  · intro ft fl imp cur cl t s
    exact ⟨rfl, rfl, rfl, rfl⟩
  · intro reqs
    induction reqs with
    | nil => intro s; simp [applyFaultRequests, getFaultHistory]
    | cons q rest ih =>
      intro s
      have step : applyFaultRequests (q :: rest) s =
          applyFaultRequests rest
            (runFaultAnalysis q.fault_type q.fault_location q.impedance q.current
              q.clearance q.timestamp s).2 := rfl
      rw [step, ih]
      simp [runFaultAnalysis, getFaultHistory, recordOfRequest]

/-! ## Claim C5 -/

/-- The initial `SubstationMetrics` built in `__init__`. -/
def initialMetrics : SubstationMetrics :=
  { total_power := 0, total_load := 0, efficiency := 0, voltage_stability := 0,
    frequency := 50, timestamp := 0, grid_connection := true, fault_count := 0 }

/-- Claim C5: after a metrics recompute, `grid_connection` is true iff the
solve converged and no `GridConnection`-class asset has status `fault`;
in particular `converged = false` forces `grid_connection = false`. -/
theorem grid_connection_characterization (r : SolveResult) (fj : ℚ) (t : ℕ)
    (reg : Registry) (m : SubstationMetrics) :
    ((updateSubstationMetrics r fj t reg m).grid_connection = true ↔
      (r.converged = true ∧
        ∀ p ∈ reg, p.2.asset_type = "GridConnection" → p.2.status ≠ "fault")) ∧
    (r.converged = false →
      (updateSubstationMetrics r fj t reg m).grid_connection = false) := by
  have hgc : (updateSubstationMetrics r fj t reg m).grid_connection =
      (r.converged &&
        reg.all (fun p => p.2.asset_type != "GridConnection" || p.2.status != "fault")) := rfl
  constructor
  · rw [hgc, Bool.and_eq_true, List.all_eq_true]
    constructor
    · rintro ⟨hc, hall⟩
      refine ⟨hc, fun p hp hty => ?_⟩
      have helt := hall p hp
      rw [Bool.or_eq_true, bne_iff_ne, bne_iff_ne] at helt
      rcases helt with h | h
      · exact absurd hty h
      · exact h
    · rintro ⟨hc, hall⟩
      refine ⟨hc, fun p hp => ?_⟩
      rw [Bool.or_eq_true, bne_iff_ne, bne_iff_ne]
      by_cases hty : p.2.asset_type = "GridConnection"
      · exact Or.inr (hall p hp hty)
      · exact Or.inl hty
  · intro hc
    rw [hgc, hc, Bool.false_and]

/-- Claim C5 witness: a diverged solve forces `grid_connection = false`
even though the only grid asset is healthy. -/
theorem grid_connection_characterization_witness :
    (updateSubstationMetrics { sampleSolve with converged := false } 0 1
      [("Grid400kV", mkAsset "Grid400kV" "GridConnection" "healthy" 100)]
      initialMetrics).grid_connection = false :=
  (grid_connection_characterization { sampleSolve with converged := false } 0 1
    [("Grid400kV", mkAsset "Grid400kV" "GridConnection" "healthy" 100)]
    initialMetrics).2 rfl

/-! ## Claim C4 -/

/-- The power value the power-transformer branch settles on. -/
def ptPower (r : SolveResult) (ep : Option ℚ) : ℚ :=
  match ep with
  | some p => |p|
  | none => |r.total_power_kw| / 2000

/-- The temperature the power-transformer branch computes. -/
def ptTemperature (r : SolveResult) (ep : Option ℚ) (j : ℚ) : ℚ :=
  45 + min (ptPower r ep / 1000 / 315) 1 * 35 + j

/-- The power value the distribution-transformer branch settles on. -/
def dtxPower (r : SolveResult) (ep : Option ℚ) : ℚ :=
  match ep with
  | some p => |p|
  | none => |r.total_power_kw| / 4000

/-- The temperature the distribution-transformer branch computes. -/
def dtxTemperature (r : SolveResult) (ep : Option ℚ) (j : ℚ) : ℚ :=
  50 + min (dtxPower r ep / 1000 / 50) 1 * 30 + j

/-- Field-level description of the power-transformer update. -/
theorem updatePowerTransformer_spec (r : SolveResult) (ep : Option ℚ)
    (j : ℚ) (t : ℕ) (a : AssetStatus) :
    (updatePowerTransformer r ep j t a).temperature = ptTemperature r ep j ∧
    (updatePowerTransformer r ep j t a).status =
      (if ptTemperature r ep j > 85 then "fault"
       else if ptTemperature r ep j > 70 then "warning" else "healthy") ∧
    (updatePowerTransformer r ep j t a).health_score =
      (if ptTemperature r ep j > 85 then max 0 (a.health_score - 1/2)
       else if ptTemperature r ep j > 70 then max 60 (a.health_score - 1/10)
       else min 100 (a.health_score + 1/20)) := by
  unfold updatePowerTransformer ptTemperature ptPower
  dsimp only
  split_ifs <;> exact ⟨rfl, rfl, rfl⟩

/-- Field-level description of the distribution-transformer update. -/
theorem updateDistributionTransformer_spec (r : SolveResult) (ep : Option ℚ)
    (j : ℚ) (t : ℕ) (a : AssetStatus) :
    (updateDistributionTransformer r ep j t a).temperature = dtxTemperature r ep j ∧
    (updateDistributionTransformer r ep j t a).status =
      (if dtxTemperature r ep j > 90 then "fault"
       else if dtxTemperature r ep j > 75 then "warning" else "healthy") ∧
    (updateDistributionTransformer r ep j t a).health_score =
      (if dtxTemperature r ep j > 90 then max 0 (a.health_score - 1/2)
       else if dtxTemperature r ep j > 75 then max 60 (a.health_score - 1/10)
       else min 100 (a.health_score + 1/20)) := by
  unfold updateDistributionTransformer dtxTemperature dtxPower
  dsimp only
  split_ifs <;> exact ⟨rfl, rfl, rfl⟩

/-- The concrete temperature of the spec scenario: `45 + 0.9 * 35 = 76.5`. -/
theorem ptTemperature_concrete :
    ptTemperature sampleSolve (some 283500) 0 = 153/2 := by
  unfold ptTemperature ptPower
  dsimp only
  rw [show |(283500:ℚ)| = 283500 from abs_of_nonneg (by norm_num),
      show (283500:ℚ)/1000/315 = 9/10 by norm_num,
      min_eq_left (by norm_num : (9:ℚ)/10 ≤ 1)]
  norm_num

/-- Claim C4: status of thermally-modeled transformer classes is derived
from the computed temperature by per-class thresholds (power transformers
85/70, distribution transformers 90/75), independently of the health
score; a power transformer at temperature `45 + 0.9*35 = 76.5` (jitter 0)
gets status `warning`. -/
theorem thermal_status_thresholds :
    (∀ (r : SolveResult) (ep : Option ℚ) (j : ℚ) (t : ℕ) (a : AssetStatus),
      ((updatePowerTransformer r ep j t a).temperature > 85 →
        (updatePowerTransformer r ep j t a).status = "fault") ∧
      ((updatePowerTransformer r ep j t a).temperature ≤ 85 →
        70 < (updatePowerTransformer r ep j t a).temperature →
        (updatePowerTransformer r ep j t a).status = "warning") ∧
      ((updatePowerTransformer r ep j t a).temperature ≤ 70 →
        (updatePowerTransformer r ep j t a).status = "healthy")) ∧
    (∀ (r : SolveResult) (ep : Option ℚ) (j : ℚ) (t : ℕ) (a : AssetStatus),
      ((updateDistributionTransformer r ep j t a).temperature > 90 →
        (updateDistributionTransformer r ep j t a).status = "fault") ∧
      ((updateDistributionTransformer r ep j t a).temperature ≤ 90 →
        75 < (updateDistributionTransformer r ep j t a).temperature →
        (updateDistributionTransformer r ep j t a).status = "warning") ∧
      ((updateDistributionTransformer r ep j t a).temperature ≤ 75 →
        (updateDistributionTransformer r ep j t a).status = "healthy")) ∧
    ((updatePowerTransformer sampleSolve (some 283500) 0 0
        (mkAsset "TX1_400_220" "PowerTransformer" "healthy" 95)).temperature = 153/2 ∧
     (updatePowerTransformer sampleSolve (some 283500) 0 0
        (mkAsset "TX1_400_220" "PowerTransformer" "healthy" 95)).status = "warning") := by
  refine ⟨?_, ?_, ?_⟩
  · intro r ep j t a
    obtain ⟨ht, hs, -⟩ := updatePowerTransformer_spec r ep j t a
    rw [ht, hs]
    refine ⟨fun hgt => if_pos hgt, fun hle hgt => ?_, fun hle => ?_⟩
    · rw [if_neg (not_lt.mpr hle), if_pos hgt]
    · rw [if_neg (not_lt.mpr (le_trans hle (by norm_num))), if_neg (not_lt.mpr hle)]
  · intro r ep j t a
    obtain ⟨ht, hs, -⟩ := updateDistributionTransformer_spec r ep j t a
    rw [ht, hs]
    refine ⟨fun hgt => if_pos hgt, fun hle hgt => ?_, fun hle => ?_⟩
    · rw [if_neg (not_lt.mpr hle), if_pos hgt]
    · rw [if_neg (not_lt.mpr (le_trans hle (by norm_num))), if_neg (not_lt.mpr hle)]
  · obtain ⟨ht, hs, -⟩ := updatePowerTransformer_spec sampleSolve (some 283500) 0 0
      (mkAsset "TX1_400_220" "PowerTransformer" "healthy" 95)
    rw [ht, hs, ptTemperature_concrete]
    exact ⟨rfl, by rw [if_neg (by norm_num), if_pos (by norm_num)]⟩

/-- Claim C4 witness: instantiating the threshold characterization on the
concrete 76.5-degree power transformer of the spec scenario. -/
theorem thermal_status_thresholds_witness :
    (updatePowerTransformer sampleSolve (some 283500) 0 0
      (mkAsset "TX1_400_220" "PowerTransformer" "healthy" 95)).status = "warning" := by
  refine (thermal_status_thresholds.1 sampleSolve (some 283500) 0 0
      (mkAsset "TX1_400_220" "PowerTransformer" "healthy" 95)).2.1 ?_ ?_
  · rw [(updatePowerTransformer_spec sampleSolve (some 283500) 0 0
      (mkAsset "TX1_400_220" "PowerTransformer" "healthy" 95)).1, ptTemperature_concrete]
    norm_num
  · rw [(updatePowerTransformer_spec sampleSolve (some 283500) 0 0
      (mkAsset "TX1_400_220" "PowerTransformer" "healthy" 95)).1, ptTemperature_concrete]
    norm_num

/-! ## Claim C1 -/

/-- Evaluation of `control_asset` on an unknown id. -/
theorem controlAsset_notFound {reg : Registry} {id : String} (action : String)
    (h : getAsset reg id = none) :
    controlAsset reg id action = .error .assetNotFound := by
  simp [controlAsset, h]

/-- Evaluation of the `open` branch of `control_asset`. -/
theorem controlAsset_open {reg : Registry} {id : String} {a : AssetStatus}
    (h : getAsset reg id = some a) (hcb : a.asset_type = "CircuitBreaker") :
    controlAsset reg id "open" =
      .ok (setAsset reg id { a with status := "open" },
           "Asset " ++ id ++ " " ++ "open" ++ " completed") := by
  simp [controlAsset, h, hcb]

/-- Evaluation of the `close` branch of `control_asset`. -/
theorem controlAsset_close {reg : Registry} {id : String} {a : AssetStatus}
    (h : getAsset reg id = some a) (hcb : a.asset_type = "CircuitBreaker") :
    controlAsset reg id "close" =
      .ok (setAsset reg id { a with status := "closed" },
           "Asset " ++ id ++ " " ++ "close" ++ " completed") := by
  simp [controlAsset, h, hcb]

/-- Evaluation of `control_asset` on an action outside the table. -/
theorem controlAsset_unsupported {reg : Registry} {id action : String}
    {a : AssetStatus} (h : getAsset reg id = some a)
    (h1 : ¬(action = "open" ∧ a.asset_type = "CircuitBreaker"))
    (h2 : ¬(action = "close" ∧ a.asset_type = "CircuitBreaker"))
    (h3 : ¬(action = "trip")) (h4 : ¬(action = "reset")) :
    controlAsset reg id action = .error .invalidAction := by
  simp only [controlAsset, h]
  rw [if_neg h1, if_neg h2, if_neg h3, if_neg h4]

/-- All registry health scores stay inside `[0, 100]`. -/
abbrev healthInv (reg : Registry) : Prop :=
  ∀ p ∈ reg, 0 ≤ p.2.health_score ∧ p.2.health_score ≤ 100

theorem updatePowerTransformer_health_bounds (r : SolveResult) (ep : Option ℚ)
    (j : ℚ) (t : ℕ) (a : AssetStatus)
    (h0 : 0 ≤ a.health_score) (h1 : a.health_score ≤ 100) :
    0 ≤ (updatePowerTransformer r ep j t a).health_score ∧
      (updatePowerTransformer r ep j t a).health_score ≤ 100 := by
  obtain ⟨-, -, hh⟩ := updatePowerTransformer_spec r ep j t a
  rw [hh]
  split_ifs
  · exact ⟨le_max_left _ _, max_le (by norm_num) (by linarith)⟩
  · exact ⟨le_trans (by norm_num) (le_max_left _ _), max_le (by norm_num) (by linarith)⟩
  · exact ⟨le_min (by norm_num) (by linarith), min_le_left _ _⟩

theorem updateDistributionTransformer_health_bounds (r : SolveResult)
    (ep : Option ℚ) (j : ℚ) (t : ℕ) (a : AssetStatus)
    (h0 : 0 ≤ a.health_score) (h1 : a.health_score ≤ 100) :
    0 ≤ (updateDistributionTransformer r ep j t a).health_score ∧
      (updateDistributionTransformer r ep j t a).health_score ≤ 100 := by
  obtain ⟨-, -, hh⟩ := updateDistributionTransformer_spec r ep j t a
  rw [hh]
  split_ifs
  · exact ⟨le_max_left _ _, max_le (by norm_num) (by linarith)⟩
  · exact ⟨le_trans (by norm_num) (le_max_left _ _), max_le (by norm_num) (by linarith)⟩
  · exact ⟨le_min (by norm_num) (by linarith), min_le_left _ _⟩

theorem updateCircuitBreaker_health_bounds (j : ℚ) (t : ℕ) (a : AssetStatus)
    (h0 : 0 ≤ a.health_score) (h1 : a.health_score ≤ 100) :
    0 ≤ (updateCircuitBreaker j t a).health_score ∧
      (updateCircuitBreaker j t a).health_score ≤ 100 := by
  unfold updateCircuitBreaker
  dsimp only
  split_ifs
  · exact ⟨le_max_left _ _, max_le (by norm_num) (by linarith)⟩
  · exact ⟨le_min (by norm_num) (by linarith), min_le_left _ _⟩

/-- The power value the industrial-load branch settles on. -/
def loadPower (aid : String) (ep : Option ℚ) : ℚ :=
  match ep with
  | some p => |p|
  | none => if aid.contains '1' then 15000 else 12000

/-- Health-score view of the industrial-load update. -/
theorem updateIndustrialLoad_health_spec (ep ev : Option ℚ) (j : ℚ) (t : ℕ)
    (a : AssetStatus) :
    (updateIndustrialLoad ep ev j t a).health_score =
      (if loadPower a.asset_id ep > 18000 then max 70 (a.health_score - 1/10)
       else min 100 (a.health_score + 1/20)) := by
  unfold updateIndustrialLoad loadPower
  dsimp only
  split_ifs <;> rfl

theorem updateIndustrialLoad_health_bounds (ep ev : Option ℚ) (j : ℚ) (t : ℕ)
    (a : AssetStatus) (h0 : 0 ≤ a.health_score) (h1 : a.health_score ≤ 100) :
    0 ≤ (updateIndustrialLoad ep ev j t a).health_score ∧
      (updateIndustrialLoad ep ev j t a).health_score ≤ 100 := by
  rw [updateIndustrialLoad_health_spec]
  split_ifs
  · exact ⟨le_trans (by norm_num) (le_max_left _ _),
      max_le (by norm_num) (by linarith)⟩
  · exact ⟨le_min (by norm_num) (by linarith), min_le_left _ _⟩

theorem updateGridConnection_health (r : SolveResult) (t : ℕ) (a : AssetStatus) :
    (updateGridConnection r t a).health_score = a.health_score := rfl

theorem tickUpdateAsset_health_bounds (r : SolveResult) (eng : EngineData)
    (t : ℕ) (id : String) (a : AssetStatus)
    (h0 : 0 ≤ a.health_score) (h1 : a.health_score ≤ 100) :
    0 ≤ (tickUpdateAsset r eng t id a).health_score ∧
      (tickUpdateAsset r eng t id a).health_score ≤ 100 := by
  unfold tickUpdateAsset
  split_ifs
  · rw [updateGridConnection_health]
    exact ⟨h0, h1⟩
  · exact updatePowerTransformer_health_bounds _ _ _ _ _ h0 h1
  · exact updateDistributionTransformer_health_bounds _ _ _ _ _ h0 h1
  · exact updateCircuitBreaker_health_bounds _ _ _ h0 h1
  · exact updateIndustrialLoad_health_bounds _ _ _ _ _ h0 h1
  · exact ⟨h0, h1⟩

theorem healthInv_setAsset {reg : Registry} {id : String} (a' : AssetStatus)
    (hreg : healthInv reg) (h0 : 0 ≤ a'.health_score)
    (h1 : a'.health_score ≤ 100) : healthInv (setAsset reg id a') := by
  intro q hq
  simp only [setAsset, List.mem_map] at hq
  obtain ⟨p, hp, hq⟩ := hq
  by_cases hid : p.1 = id
  · rw [if_pos hid] at hq
    subst hq
    exact ⟨h0, h1⟩
  · rw [if_neg hid] at hq
    subst hq
    exact hreg p hp

theorem healthInv_tickStep (r : SolveResult) (eng : EngineData) (t : ℕ)
    (id : String) {reg : Registry} (hreg : healthInv reg) :
    healthInv (tickStep r eng t reg id) := by
  unfold tickStep
  cases hga : getAsset reg id with
  | none => exact hreg
  | some a =>
    have hb := hreg (id, a) (getAsset_mem hga)
    have hub := tickUpdateAsset_health_bounds r eng t id a hb.1 hb.2
    exact healthInv_setAsset _ hreg hub.1 hub.2

theorem healthInv_foldl (r : SolveResult) (eng : EngineData) (t : ℕ)
    (ids : List String) :
    ∀ {reg : Registry}, healthInv reg →
      healthInv (ids.foldl (tickStep r eng t) reg) := by
  induction ids with
  | nil => intro reg h; exact h
  | cons id rest ih =>
    intro reg h
    exact ih (healthInv_tickStep r eng t id h)

/-- Claim C1: both mutation paths of the health score — the per-tick
thermal/health update of every asset class and the `trip`/`reset` (and
`open`/`close`) control actions — keep every health score in `[0, 100]`. -/
theorem healthScore_invariant :
    (∀ (r : SolveResult) (eng : EngineData) (t : ℕ) (reg : Registry),
      healthInv reg → healthInv (updateAssetStatuses r eng t reg)) ∧
    (∀ (reg : Registry) (id action : String) (reg' : Registry) (msg : String),
      healthInv reg → controlAsset reg id action = .ok (reg', msg) →
      healthInv reg') := by
  constructor
  · intro r eng t reg hreg
    unfold updateAssetStatuses
    split_ifs
    · exact healthInv_foldl r eng t tickAssetIds hreg
    · exact hreg
  · intro reg id action reg' msg hreg hok
    cases hga : getAsset reg id with
    | none =>
      rw [controlAsset_notFound action hga] at hok
      cases hok
    | some a =>
      have hb := hreg (id, a) (getAsset_mem hga)
      by_cases h1 : action = "open" ∧ a.asset_type = "CircuitBreaker"
      · obtain ⟨rfl, hcb⟩ := h1
        rw [controlAsset_open hga hcb] at hok
        obtain ⟨h5, -⟩ := Prod.mk.inj (Except.ok.inj hok)
        rw [← h5]
        exact healthInv_setAsset _ hreg hb.1 hb.2
      by_cases h2 : action = "close" ∧ a.asset_type = "CircuitBreaker"
      · obtain ⟨rfl, hcb⟩ := h2
        rw [controlAsset_close hga hcb] at hok
        obtain ⟨h5, -⟩ := Prod.mk.inj (Except.ok.inj hok)
        rw [← h5]
        exact healthInv_setAsset _ hreg hb.1 hb.2
      by_cases h3 : action = "trip"
      · subst h3
        rw [controlAsset_trip hga] at hok
        obtain ⟨h5, -⟩ := Prod.mk.inj (Except.ok.inj hok)
        rw [← h5]
        exact healthInv_setAsset _ hreg (le_max_left _ _)
          (max_le (by norm_num) (by linarith [hb.2]))
      by_cases h4 : action = "reset"
      · subst h4
        rw [controlAsset_reset hga] at hok
        obtain ⟨h5, -⟩ := Prod.mk.inj (Except.ok.inj hok)
        rw [← h5]
        exact healthInv_setAsset _ hreg
          (le_min (by norm_num) (by linarith [hb.1])) (min_le_left _ _)
      · rw [controlAsset_unsupported hga h1 h2 h3 h4] at hok
        cases hok

/-- Engine inputs with every element read failing and zero jitter. -/
def engNone : EngineData :=
  { dssAvailable := true, txPowers := fun _ => none, loadPowers := fun _ => none,
    loadVoltages := fun _ => none, jitter := fun _ => 0, freqJitter := 0 }

/-- Registry with one breaker used by several witnesses. -/
def cbReg : Registry := [("CB_1", mkAsset "CB_1" "CircuitBreaker" "healthy" 98)]

/-- The registry produced by tripping `CB_1` in `cbReg`. -/
def cbRegTripped : Registry := [("CB_1", mkAsset "CB_1" "CircuitBreaker" "fault" 88)]

/-- Concrete `trip` on `cbReg`: 98 → 88. -/
theorem cbReg_trip_step :
    controlAsset cbReg "CB_1" "trip" =
      .ok (cbRegTripped, "Asset " ++ "CB_1" ++ " " ++ "trip" ++ " completed") := by
  rw [controlAsset_trip (show getAsset cbReg "CB_1" =
        some (mkAsset "CB_1" "CircuitBreaker" "healthy" 98) by decide)]
  rw [show max (0:ℚ) ((mkAsset "CB_1" "CircuitBreaker" "healthy" 98).health_score - 10) = 88 by
    rw [show (mkAsset "CB_1" "CircuitBreaker" "healthy" 98).health_score = 98 from rfl]
    rw [max_eq_right (by norm_num : (0:ℚ) ≤ 98 - 10)]
    norm_num]
  rfl

/-- Claim C1 witness: the invariant is preserved on a concrete registry by
one full asset-status tick and by a concrete `trip` command. -/
theorem healthScore_invariant_witness :
    healthInv (updateAssetStatuses sampleSolve engNone 1 cbReg) ∧
    healthInv cbRegTripped :=
  ⟨healthScore_invariant.1 sampleSolve engNone 1 cbReg (by decide),
   healthScore_invariant.2 cbReg "CB_1" "trip" cbRegTripped
     ("Asset " ++ "CB_1" ++ " " ++ "trip" ++ " completed") (by decide) cbReg_trip_step⟩

/-! ## Claim C10 -/

/-- `tickStep` at another id does not change `getAsset` at `id`. -/
theorem getAsset_tickStep_ne (r : SolveResult) (eng : EngineData) (t : ℕ)
    (reg : Registry) {id id' : String} (h : id ≠ id') :
    getAsset (tickStep r eng t reg id') id = getAsset reg id := by
  unfold tickStep
  cases getAsset reg id' with
  | none => rfl
  | some a => exact getAsset_setAsset_ne _ h

/-- Folding `tickStep` over ids not containing `id` preserves `getAsset`. -/
theorem getAsset_foldl_notMem (r : SolveResult) (eng : EngineData) (t : ℕ)
    (ids : List String) :
    ∀ (reg : Registry) (id : String), id ∉ ids →
      getAsset (ids.foldl (tickStep r eng t) reg) id = getAsset reg id := by
  induction ids with
  | nil => intro reg id _; rfl
  | cons id' rest ih =>
    intro reg id h
    rw [List.foldl_cons, ih _ _ (fun hm => h (List.mem_cons_of_mem _ hm)),
        getAsset_tickStep_ne r eng t reg
          (fun he => h (by rw [he]; exact List.mem_cons_self _ _))]

/-- Folding `tickStep` over a duplicate-free id list updates the entry at a
present id to its `tickUpdateAsset` image. -/
theorem getAsset_foldl_mem (r : SolveResult) (eng : EngineData) (t : ℕ)
    (ids : List String) :
    ∀ (reg : Registry) (id : String) (a : AssetStatus), ids.Nodup → id ∈ ids →
      getAsset reg id = some a →
      getAsset (ids.foldl (tickStep r eng t) reg) id =
        some (tickUpdateAsset r eng t id a) := by
  induction ids with
  | nil =>
    intro reg id a _ h
    exact absurd h (List.not_mem_nil id)
  | cons id' rest ih =>
    intro reg id a hnd hmem hget
    rw [List.foldl_cons]
    rcases List.mem_cons.mp hmem with rfl | hmem'
    · have hstep : tickStep r eng t reg id = setAsset reg id (tickUpdateAsset r eng t id a) := by
        unfold tickStep
        rw [hget]
      rw [hstep, getAsset_foldl_notMem r eng t rest _ id (List.nodup_cons.mp hnd).1]
      exact getAsset_setAsset_self _ hget
    · have hne : id ≠ id' := by
        intro he
        exact (List.nodup_cons.mp hnd).1 (he ▸ hmem')
      refine ih _ id a (List.nodup_cons.mp hnd).2 hmem' ?_
      rw [getAsset_tickStep_ne r eng t reg hne]
      exact hget

/-- On breaker ids the tick dispatch runs the circuit-breaker update. -/
theorem tickUpdateAsset_cb (r : SolveResult) (eng : EngineData) (t : ℕ)
    (id : String) (a : AssetStatus) (hid : id ∈ cbIds) :
    tickUpdateAsset r eng t id a = updateCircuitBreaker (eng.jitter id) t a := by
  simp only [cbIds, List.mem_cons, List.not_mem_nil, or_false] at hid
  rcases hid with rfl | rfl | rfl | rfl | rfl <;> simp [tickUpdateAsset, cbIds]

/-- Claim C10: after a tick's asset update, a circuit breaker whose status
was not `fault` before the update — including an operator-set `open` or
`closed` breaker — is rewritten to status `healthy`. -/
theorem breaker_rewritten_healthy (r : SolveResult) (eng : EngineData)
    (t : ℕ) (reg : Registry) (id : String) (a : AssetStatus)
    (hdss : eng.dssAvailable = true) (hid : id ∈ cbIds)
    (hget : getAsset reg id = some a) (hst : a.status ≠ "fault") :
    getAsset (updateAssetStatuses r eng t reg) id =
      some (updateCircuitBreaker (eng.jitter id) t a) ∧
    (updateCircuitBreaker (eng.jitter id) t a).status = "healthy" := by
  constructor
  · have hmem : id ∈ tickAssetIds := by
      simp only [cbIds, List.mem_cons, List.not_mem_nil, or_false] at hid
      rcases hid with rfl | rfl | rfl | rfl | rfl <;> decide
    unfold updateAssetStatuses
    rw [if_pos hdss,
        getAsset_foldl_mem r eng t tickAssetIds reg id a (by decide) hmem hget,
        tickUpdateAsset_cb r eng t id a hid]
  · unfold updateCircuitBreaker
    dsimp only
    rw [if_neg hst]

/-- Claim C10 witness: an operator-opened `CB_1` is rewritten to `healthy`
by the next tick. -/
theorem breaker_rewritten_healthy_witness :
    getAsset (updateAssetStatuses sampleSolve engNone 1
        [("CB_1", mkAsset "CB_1" "CircuitBreaker" "open" 98)]) "CB_1" =
      some (updateCircuitBreaker (engNone.jitter "CB_1") 1
        (mkAsset "CB_1" "CircuitBreaker" "open" 98)) ∧
    (updateCircuitBreaker (engNone.jitter "CB_1") 1
        (mkAsset "CB_1" "CircuitBreaker" "open" 98)).status = "healthy" :=
  breaker_rewritten_healthy sampleSolve engNone 1
    [("CB_1", mkAsset "CB_1" "CircuitBreaker" "open" 98)] "CB_1"
    (mkAsset "CB_1" "CircuitBreaker" "open" 98) rfl (by decide) (by decide)
    (by decide)

/-! ## Claim C6 -/

/-- Removing, one by one, elements that all differ from the head leaves the
head in place. -/
theorem foldl_erase_cons (ds : List ℕ) :
    ∀ (c : ℕ) (cs : List ℕ), (∀ d ∈ ds, d ≠ c) →
      ds.foldl (fun cs d => cs.erase d) (c :: cs) =
        c :: ds.foldl (fun cs d => cs.erase d) cs := by
  induction ds with
  | nil => intro c cs _; rfl
  | cons d ds ih =>
    intro c cs h
    rw [List.foldl_cons, List.foldl_cons,
        List.erase_cons_tail (by simpa using Ne.symm (h d (List.mem_cons_self _ _)))]
    exact ih c (cs.erase d) (fun e he => h e (List.mem_cons_of_mem _ he))

/-- The removal loop of `_broadcast_updates`: erasing every client whose
send failed from a duplicate-free client list keeps exactly the clients
whose send succeeded. -/
theorem foldl_erase_filter (p : ℕ → Bool) (l : List ℕ) (h : l.Nodup) :
    (l.filter p).foldl (fun cs d => cs.erase d) l = l.filter (fun c => !p c) := by
  induction l with
  | nil => rfl
  | cons c cs ih =>
    obtain ⟨hc, hnd⟩ := List.nodup_cons.mp h
    cases hp : p c
    · rw [List.filter_cons_of_neg (by simp [hp]),
          List.filter_cons_of_pos (by simp [hp]),
          foldl_erase_cons _ c cs
            (fun d hd => fun he => hc (he ▸ List.mem_of_mem_filter hd)),
          ih hnd]
    · rw [List.filter_cons_of_pos (by simp [hp]),
          List.filter_cons_of_neg (by simp [hp]),
          List.foldl_cons, List.erase_cons_head, ih hnd]

/-- Claim C6: a publish delivers the same snapshot to every subscriber
whose send succeeds, removes exactly the failing subscribers, and in the
single-failure case removes only that subscriber while all others still
receive the published snapshot in the same call. -/
theorem broadcast_failure_isolation (fails : ℕ → Bool) (msg : UpdateMessage)
    (clients : List ℕ) (hnd : clients.Nodup) :
    (broadcastUpdates fails msg clients).1 =
      clients.filter (fun c => !fails c) ∧
    (broadcastUpdates fails msg clients).2 =
      (clients.filter (fun c => !fails c)).map (fun c => (c, msg)) ∧
    ∀ c ∈ clients, (∀ d ∈ clients, fails d = true ↔ d = c) →
      (broadcastUpdates fails msg clients).1 = clients.erase c ∧
      ∀ d ∈ clients, d ≠ c → (d, msg) ∈ (broadcastUpdates fails msg clients).2 := by
  cases clients with
  | nil =>
    refine ⟨rfl, rfl, ?_⟩
    intro c hc
    exact absurd hc (List.not_mem_nil c)
  | cons c0 cs =>
    have hne : ((c0 :: cs : List ℕ).isEmpty = false) := rfl
    have h1 : (broadcastUpdates fails msg (c0 :: cs)).1 =
        (c0 :: cs).filter (fun c => !fails c) := by
      unfold broadcastUpdates
      rw [hne]
      dsimp only
      exact foldl_erase_filter fails (c0 :: cs) hnd
    have h2 : (broadcastUpdates fails msg (c0 :: cs)).2 =
        ((c0 :: cs).filter (fun c => !fails c)).map (fun c => (c, msg)) := rfl
    refine ⟨h1, h2, ?_⟩
    intro c hc hone
    constructor
    · rw [h1, hnd.erase_eq_filter c]
      refine List.filter_congr (fun d hd => ?_)
      cases hfd : fails d
      · have hdc : d ≠ c := fun he => by
          rw [(hone d hd).mpr he] at hfd
          cases hfd
        simp [hdc]
      · have hdc : d = c := (hone d hd).mp hfd
        simp [hdc]
    · intro d hd hdc
      have hfd : fails d = false := by
        cases hfd : fails d
        · rfl
        · exact absurd ((hone d hd).mp hfd) hdc
      rw [h2]
      exact List.mem_map.mpr ⟨d, List.mem_filter.mpr ⟨hd, by simp [hfd]⟩, rfl⟩

/-- Claim C6 witness: with subscribers `[1, 2, 3]` where only `2` fails,
the publish removes only `2` and both `1` and `3` receive the snapshot. -/
theorem broadcast_failure_isolation_witness :
    (broadcastUpdates (fun c => c == 2) ⟨[], initialMetrics, 0⟩ [1, 2, 3]).1 =
      ([1, 2, 3] : List ℕ).erase 2 ∧
    ((1 : ℕ), (⟨[], initialMetrics, 0⟩ : UpdateMessage)) ∈
      (broadcastUpdates (fun c => c == 2) ⟨[], initialMetrics, 0⟩ [1, 2, 3]).2 ∧
    ((3 : ℕ), (⟨[], initialMetrics, 0⟩ : UpdateMessage)) ∈
      (broadcastUpdates (fun c => c == 2) ⟨[], initialMetrics, 0⟩ [1, 2, 3]).2 := by
  have h := (broadcast_failure_isolation (fun c => c == 2) ⟨[], initialMetrics, 0⟩
    [1, 2, 3] (by decide)).2.2 2 (by decide) (by decide)
  exact ⟨h.1, h.2 1 (by decide) (by decide), h.2 3 (by decide) (by decide)⟩

end DigitalTwin
